import Mathlib

set_option maxRecDepth 4000

deriving instance DecidableEq for Except

/-!
Verification development for the Biologic CAM binary-converter repository.

The definitions below are a shallow embedding of the Python sources:
`src/features.py` (class `Features`), `src/cam_biologic_data_import.py`,
`src/extract_electrochemical_features.py` and the batch loop of
`src/main.py`.

Modelling conventions:
* Real (floating-point) quantities are modelled as rationals `ℚ`.
* A pandas/NumPy NaN (e.g. `Series.max()` of an empty selection) is
  modelled by the value `none` of `FVal := Option ℚ`; arithmetic on
  `FVal` propagates `none` exactly as NaN propagates through `- * /`
  and `round`.  Division by zero is likewise modelled as undefined
  (`none`); no claim below depends on the behaviour at a zero divisor.
* Python `round(x, n)` rounds half to even; `roundTo` implements that
  on `ℚ`.
* A Python dict is modelled as an insertion-ordered association list
  (`FeatureSet`); assignment to an existing key updates it in place.
* Code that can raise returns `Except String _`; the string names the
  Python exception class that the corresponding statement raises.
* Filenames are modelled as `List Char`; the Python substring test
  `s in t` is `containsSub`.
-/

/-- Floor of a rational, computed from its normalised numerator and
denominator (`Int.fdiv` is floor division and `q.den > 0`). -/
def qfloor (q : ℚ) : ℤ := Int.fdiv q.num (q.den : ℤ)

/-- Python `round` to an integer: nearest integer, ties to even. -/
def roundHalfEven (q : ℚ) : ℤ :=
  let f := qfloor q
  let r := q - (f : ℚ)
  if r < 1/2 then f
  else if 1/2 < r then f + 1
  else if f % 2 = 0 then f else f + 1

/-- Python `round(x, n)` for `n` decimal digits, on rationals. -/
def roundTo (n : ℕ) (q : ℚ) : ℚ := (roundHalfEven (q * (10 : ℚ) ^ n) : ℚ) / (10 : ℚ) ^ n

/-- A feature value: `some q` is an ordinary float, `none` is NaN
(the result NumPy/pandas produce for the max of an empty selection). -/
abbrev FVal := Option ℚ

/-- NaN-propagating subtraction. -/
def fSub : FVal → FVal → FVal
  | some a, some b => some (a - b)
  | _, _ => none

/-- NaN-propagating multiplication. -/
def fMul : FVal → FVal → FVal
  | some a, some b => some (a * b)
  | _, _ => none

/-- NaN-propagating division; a zero divisor is modelled as undefined. -/
def fDiv : FVal → FVal → FVal
  | some a, some b => if b = 0 then none else some (a / b)
  | _, _ => none

/-- NaN-propagating `round(x, n)`. -/
def fRound (n : ℕ) : FVal → FVal
  | some q => some (roundTo n q)
  | none => none

/-- One fold step of `Series.max()`: the running maximum. -/
def maxStep (acc : Option ℚ) (x : ℚ) : Option ℚ :=
  match acc with
  | none => some x
  | some m => some (max m x)

/-- `Series.max()` over the listed values: `none` (NaN) on the empty
list, otherwise the maximum. -/
def listMax (l : List ℚ) : Option ℚ := l.foldl maxStep none

/-- One row of the normalised "cloud format" time-series produced by the
reader collaborator (the input schema consumed by `Features`):
`step_type` is an enum string (`"CHARGE"`, `"DISCHARGE"`, `"REST"`, …). -/
structure Row where
  step_type : String
  step_number : ℤ
  cycle : ℤ
  voltage : ℚ
  step_amp_hours : ℚ
deriving DecidableEq

/-- The cloud-format dataframe: an ordered table of rows. -/
abbrev CyclingRecord := List Row

/-- The features dictionary: an insertion-ordered association list. -/
abbrev FeatureSet := List (String × FVal)

/-- Python dict assignment `d[k] = v`: update an existing key in place,
otherwise append at the end. -/
def fsInsert : FeatureSet → String → FVal → FeatureSet
  | [], k, v => [(k, v)]
  | (k0, v0) :: rest, k, v =>
      if k0 = k then (k0, v) :: rest else (k0, v0) :: fsInsert rest k v

/-- Python dict lookup `d[k]` (as an `Option`; `none` means the lookup
raises `KeyError`). -/
def fsLookup : FeatureSet → String → Option FVal
  | [], _ => none
  | (k0, v0) :: rest, k => if k0 = k then some v0 else fsLookup rest k

namespace Features

/-- The row mask actually computed by `Features.extract_ocv`
(src/features.py line 44):

`idx = np.logical_and(df["step_type"] == "REST", df["step_number"] == 0, df["cycle"] == 1)`

`np.logical_and` is a binary ufunc: its third positional argument is the
`out` buffer, not a third conjunct.  The call therefore computes the
conjunction of the first two conditions and overwrites the
`df["cycle"] == 1` series with that result.  The effective mask tests
only `step_type == "REST"` and `step_number == 0`; the cycle condition
announced by the source comment ("the REST step for cycle 1") is not
applied. -/
def ocvMask (r : Row) : Bool :=
  r.step_type == "REST" && r.step_number == 0

/-- `Features.extract_ocv` (src/features.py lines 36-53): select rows by
`ocvMask`, take the voltage of the last selected row
(`df[idx]["voltage"].iloc[-1]`, an `IndexError` when the selection is
empty), round it to 3 digits and store it under
"Open Circuit Potential (V)". -/
def extract_ocv (df : CyclingRecord) (features : FeatureSet) :
    Except String FeatureSet :=
  match (df.filter ocvMask).getLast? with
  | none => .error "IndexError"
  | some r =>
      .ok (fsInsert features "Open Circuit Potential (V)" (some (roundTo 3 r.voltage)))

/-- Row mask of `Features.extract_initial_charge_capacity`:
`np.logical_and(df["step_type"] == "CHARGE", df["cycle"] == 1)`
(two arguments, so here the conjunction is as written). -/
def chargeMask (r : Row) : Bool :=
  r.step_type == "CHARGE" && r.cycle == 1

/-- Row mask of `Features.extract_initial_discharge_capacity`:
`np.logical_and(df["step_type"] == "DISCHARGE", df["cycle"] == 1)`. -/
def dischargeMask (r : Row) : Bool :=
  r.step_type == "DISCHARGE" && r.cycle == 1

/-- `Features.extract_initial_charge_capacity` (src/features.py lines
55-86): the max `step_amp_hours` over `chargeMask` rows (NaN when none),
stored ×1000 rounded to 3 digits as "Initial Charge Capacity (mAh)" and,
divided by `mass` before rounding to 1 digit, as
"Initial Specific Charge Capacity (mAh/g) " (the source key ends in a
space). -/
def extract_initial_charge_capacity (df : CyclingRecord) (features : FeatureSet)
    (mass : ℚ) : FeatureSet :=
  let cap : FVal := listMax ((df.filter chargeMask).map (fun r => r.step_amp_hours))
  let specific : FVal := fDiv (fMul cap (some 1000)) (some mass)
  let f1 := fsInsert features "Initial Charge Capacity (mAh)" (fRound 3 (fMul cap (some 1000)))
  fsInsert f1 "Initial Specific Charge Capacity (mAh/g) " (fRound 1 specific)

/-- `Features.extract_initial_discharge_capacity` (src/features.py lines
88-119), the DISCHARGE analogue of the previous function. -/
def extract_initial_discharge_capacity (df : CyclingRecord) (features : FeatureSet)
    (mass : ℚ) : FeatureSet :=
  let cap : FVal := listMax ((df.filter dischargeMask).map (fun r => r.step_amp_hours))
  let specific : FVal := fDiv (fMul cap (some 1000)) (some mass)
  let f1 := fsInsert features "Initial Discharge Capacity (mAh)" (fRound 3 (fMul cap (some 1000)))
  fsInsert f1 "Initial Specific Discharge capacity (mAh/g)" (fRound 1 specific)

/-- `Features.extract_initial_coulombic_efficiency` (src/features.py
lines 121-146): read the two initial capacities back from the features
dict (a `KeyError` if either is missing), store
`round((discharge / charge) * 100, 1)` under
"Initial Coulombic Efficiency (%)".  The dataframe argument is accepted
but unused, as in the source. -/
def extract_initial_coulombic_efficiency (_df : CyclingRecord)
    (features : FeatureSet) : Except String FeatureSet :=
  match fsLookup features "Initial Discharge Capacity (mAh)" with
  | none => .error "KeyError"
  | some d =>
    match fsLookup features "Initial Charge Capacity (mAh)" with
    | none => .error "KeyError"
    | some c =>
        .ok (fsInsert features "Initial Coulombic Efficiency (%)"
              (fRound 1 (fMul (fDiv d c) (some 100))))

/-- The per-cycle discharge capacity used by
`extract_capacities_for_cycles` and
`extract_discharge_capacity_difference`: DISCHARGE rows are grouped by
`cycle` with `max(step_amp_hours)` per group, the grouped table is
restricted to `cycle > 1`, and the single group for cycle `c` is
selected with a final `.max()` — NaN (`none`) when that cycle has no
DISCHARGE rows or is not `> 1`. -/
def cycleDischargeCapacity (df : CyclingRecord) (c : ℤ) : FVal :=
  if 1 < c then
    listMax ((df.filter (fun r => r.step_type == "DISCHARGE" && r.cycle == c)).map
      (fun r => r.step_amp_hours))
  else none

/-- The dict key `f"Retention Cycle {cycle} (%)"`. -/
def retentionKey (c : ℤ) : String := "Retention Cycle " ++ toString c ++ " (%)"

/-- The value stored for one requested cycle by
`extract_capacities_for_cycles`:
`round(discharge_capacity * 100 / (initial_discharge_capacity / 1000), 1)`. -/
def retentionVal (df : CyclingRecord) (idc : FVal) (c : ℤ) : FVal :=
  fRound 1 (fDiv (fMul (cycleDischargeCapacity df c) (some 100)) (fDiv idc (some 1000)))

/-- `Features.extract_capacities_for_cycles` (src/features.py lines
148-180): reads "Initial Discharge Capacity (mAh)" from the dict (a
`KeyError` when absent) and, for each requested cycle in order, stores
`retentionVal` under `retentionKey` — including a NaN value when the
cycle has no discharge rows. -/
def extract_capacities_for_cycles (df : CyclingRecord) (features : FeatureSet)
    (cycles : List ℤ) : Except String FeatureSet :=
  match fsLookup features "Initial Discharge Capacity (mAh)" with
  | none => .error "KeyError"
  | some idc =>
      .ok (cycles.foldl (fun acc c => fsInsert acc (retentionKey c) (retentionVal df idc c))
            features)

/-- The dict key `f"Retention Difference for {cycle} (%)"`. -/
def diffKey (c : ℤ) : String := "Retention Difference for " ++ toString c ++ " (%)"

/-- One loop iteration of `extract_discharge_capacity_difference`: the
state is the features dict together with `prev_discharge_capacity`;
the stored value is
`round((discharge_capacity - prev) / (prev / 100), 3)` and `prev` is
then updated to the current cycle's capacity. -/
def diffStep (df : CyclingRecord) (st : FeatureSet × FVal) (c : ℤ) : FeatureSet × FVal :=
  let cap := cycleDischargeCapacity df c
  (fsInsert st.1 (diffKey c) (fRound 3 (fDiv (fSub cap st.2) (fDiv st.2 (some 100)))), cap)

/-- `Features.extract_discharge_capacity_difference` (src/features.py
lines 182-205): `prev_discharge_capacity` starts as cycle 2's capacity
and is reassigned to the most recently processed cycle's capacity after
every iteration; the function never raises. -/
def extract_discharge_capacity_difference (df : CyclingRecord) (features : FeatureSet)
    (cycles : List ℤ) : FeatureSet :=
  (cycles.foldl (diffStep df) (features, cycleDischargeCapacity df 2)).1

end Features

/-- Python substring test `needle in hay` on char lists. -/
def containsSub (needle : List Char) : List Char → Bool
  | [] => needle.isEmpty
  | c :: rest => needle.isPrefixOf (c :: rest) || containsSub needle rest

/-- Result of `get_protocol_type`: either a normal return value or the
`SystemExit` raised by `sys.exit(1)` (which is a `BaseException`, not an
`Exception`). -/
inductive ProtoResult where
  | systemExit : ProtoResult
  | result : String → ProtoResult
deriving DecidableEq

/-- `get_protocol_type` (src/cam_biologic_data_import.py lines 12-34):
`'OCV' in filename` → `sys.exit(1)`; `'Life'` → `'CL'`;
`'Formation-Capacity-Check'` → `'FC'`; `'Formation'` → `'F'`;
otherwise the value the interactive `input()` prompt returns
(modelled by the `promptAnswer` argument). -/
def get_protocol_type (filename : List Char) (promptAnswer : String) : ProtoResult :=
  if containsSub ("OCV".toList) filename then .systemExit
  else if containsSub ("Life".toList) filename then .result "CL"
  else if containsSub ("Formation-Capacity-Check".toList) filename then .result "FC"
  else if containsSub ("Formation".toList) filename then .result "F"
  else .result promptAnswer

/-- Python `str.split('_')` on char lists (single-character separator,
keeping empty parts, as `split` does). -/
def splitOnUnderscore : List Char → List (List Char)
  | [] => [[]]
  | '_' :: r => [] :: splitOnUnderscore r
  | c :: r =>
    match splitOnUnderscore r with
    | [] => [[c]]
    | t :: ts => (c :: t) :: ts

/-- Numeric value of a digit string. -/
def digitsToNat (ds : List Char) : ℕ :=
  ds.foldl (fun a c => 10 * a + (c.toNat - 48)) 0

/-- Parse an optional sign; returns (isNegative, rest). -/
def parseSign : List Char → (Bool × List Char)
  | '-' :: r => (true, r)
  | '+' :: r => (false, r)
  | l => (false, l)

/-- Parse the mantissa of a Python float literal:
`digits [. digits] | . digits` (at least one digit overall). -/
def parseMantissa (l : List Char) : Option (ℚ × List Char) :=
  let p := l.span (fun c => c.isDigit)
  match p.2 with
  | '.' :: r2 =>
      let q := r2.span (fun c => c.isDigit)
      if p.1.isEmpty && q.1.isEmpty then none
      else some ((digitsToNat p.1 : ℚ) + (digitsToNat q.1 : ℚ) / (10 : ℚ) ^ q.1.length, q.2)
  | _ => if p.1.isEmpty then none else some ((digitsToNat p.1 : ℚ), p.2)

/-- Parse an optional exponent part `(e|E) [sign] digits`. -/
def parseExponent : List Char → Option (ℤ × List Char)
  | 'e' :: r =>
      let s := parseSign r
      let p := s.2.span (fun c => c.isDigit)
      if p.1.isEmpty then none
      else some (if s.1 then -(digitsToNat p.1 : ℤ) else (digitsToNat p.1 : ℤ), p.2)
  | 'E' :: r =>
      let s := parseSign r
      let p := s.2.span (fun c => c.isDigit)
      if p.1.isEmpty then none
      else some (if s.1 then -(digitsToNat p.1 : ℤ) else (digitsToNat p.1 : ℤ), p.2)
  | l => some (0, l)

/-- Ten to an integer power, in `ℚ`. -/
def zpow10 (e : ℤ) : ℚ :=
  if 0 ≤ e then (10 : ℚ) ^ e.toNat else ((10 : ℚ) ^ (-e).toNat)⁻¹

/-- The Python builtin `float(token)` on a finite decimal literal
`[sign] mantissa [exponent]` (the special spellings `inf`/`nan`, hex
floats and surrounding whitespace are outside the rational model and
not produced by the filenames this program splits):
`none` models the `ValueError` a non-parsing token raises. -/
def pyFloat (l : List Char) : Option ℚ :=
  let sg := parseSign l
  match parseMantissa sg.2 with
  | none => none
  | some (m, r1) =>
    match parseExponent r1 with
    | none => none
    | some (e, r2) =>
        if r2.isEmpty then some ((if sg.1 then -m else m) * zpow10 e) else none

/-- `extract_mass_from_filename` (src/cam_biologic_data_import.py lines
57-72): `float(filename.split('_')[1])` inside a bare `try/except` whose
handler sets `mass = 1.0`; a missing second token (`IndexError`) or a
non-parsing one (`ValueError`) both fall back to `1.0`, so the function
is total and never propagates an exception to its caller. -/
def extract_mass_from_filename (filename : List Char) : ℚ :=
  match (splitOnUnderscore filename)[1]? with
  | none => 1
  | some t =>
    match pyFloat t with
    | some m => m
    | none => 1

/-- The `CC-\d{1,2}` part of the pattern of `process_filenames_CC`: if
the list starts with `CC-` followed by one or two digits (greedy, as
`{1,2}` is), return the matched characters. -/
def matchCCAt : List Char → Option (List Char)
  | 'C' :: 'C' :: '-' :: d1 :: rest =>
      if d1.isDigit then
        match rest with
        | d2 :: _ => if d2.isDigit then some ['C', 'C', '-', d1, d2] else some ['C', 'C', '-', d1]
        | [] => some ['C', 'C', '-', d1]
      else none
  | _ => none

/-- The regex `^(.*?)(CC-\d{1,2})` of `process_filenames_CC`: the lazy
`(.*?)` makes the match start at the earliest position where
`CC-\d{1,2}` succeeds; returns the two captured groups. -/
def findCC : List Char → Option (List Char × List Char)
  | [] => none
  | c :: rest =>
    match matchCCAt (c :: rest) with
    | some g2 => some ([], g2)
    | none => (findCC rest).map (fun p => (c :: p.1, p.2))

/-- `process_filenames_CC` on a single filename
(src/cam_biologic_data_import.py lines 167-195): when the pattern
matches, the function returns `match[0]` — the whole matched text, i.e.
the concatenation of the two groups — and `None` otherwise.  (Only the
list-input branch joins the groups with the `'-'` separator; the
single-filename branch does not.) -/
def process_filenames_CC (filename : List Char) : Option (List Char) :=
  (findCC filename).map (fun p => p.1 ++ p.2)

/-- Whether the list starts with the literal `-CC`. -/
def startsWithDashCC (l : List Char) : Bool :=
  match l with
  | '-' :: 'C' :: 'C' :: _ => true
  | _ => false

/-- The caller-side fallback in src/main.py lines 63-64:
`re.compile(r'(.*?)-CC').findall(filename)[0]` — the text before the
earliest occurrence of `-CC`, an `IndexError` (`none`) when there is
none. -/
def findDashCC : List Char → Option (List Char)
  | [] => none
  | c :: rest =>
      if startsWithDashCC (c :: rest) then some []
      else (findDashCC rest).map (fun g => c :: g)

/-- Sample-ID resolution as performed in the batch loop (src/main.py
lines 59-65): `process_filenames_CC` first, the `(.*?)-CC` fallback when
it returns `None`; `none` here means the `IndexError` of indexing an
empty `findall` result. -/
def resolveSampleId (stem : List Char) : Option (List Char) :=
  match process_filenames_CC stem with
  | some s => some s
  | none => findDashCC stem

/-- `extract_formation_features`
(src/extract_electrochemical_features.py lines 6-30) applied to the
result of `convert_file_to_cloud` (which returns `None` instead of
raising, whence the `TypeError` when the dataframe is `None`): OCV, then
initial charge capacity, then initial discharge capacity, then
coulombic efficiency, on one shared features dict. -/
def extract_formation_features (cloud : Option CyclingRecord) (mass : ℚ) :
    Except String FeatureSet :=
  match cloud with
  | none => .error "TypeError"
  | some df =>
    match Features.extract_ocv df [] with
    | .error e => .error e
    | .ok f1 =>
      let f2 := Features.extract_initial_charge_capacity df f1 mass
      let f3 := Features.extract_initial_discharge_capacity df f2 mass
      Features.extract_initial_coulombic_efficiency df f3

/-- `extract_qc_cycle_life_features`
(src/extract_electrochemical_features.py lines 33-56): initial charge
and discharge capacities, then retention for the single cycle 50. -/
def extract_qc_cycle_life_features (cloud : Option CyclingRecord) (mass : ℚ) :
    Except String FeatureSet :=
  match cloud with
  | none => .error "TypeError"
  | some df =>
    let f1 := Features.extract_initial_charge_capacity df [] mass
    let f2 := Features.extract_initial_discharge_capacity df f1 mass
    Features.extract_capacities_for_cycles df f2 [50]

/-- `np.arange(2, 51)`: the cycles 2, …, 50. -/
def cyclesDefault : List ℤ := (List.range 49).map (fun i => (i : ℤ) + 2)

/-- `extract_all_cycle_life_features`
(src/extract_electrochemical_features.py lines 59-82): initial
capacities, retention for cycles 2-50, drift for cycles 2-50. -/
def extract_all_cycle_life_features (cloud : Option CyclingRecord) (mass : ℚ) :
    Except String FeatureSet :=
  match cloud with
  | none => .error "TypeError"
  | some df =>
    let f1 := Features.extract_initial_charge_capacity df [] mass
    let f2 := Features.extract_initial_discharge_capacity df f1 mass
    match Features.extract_capacities_for_cycles df f2 cyclesDefault with
    | .error e => .error e
    | .ok f3 => .ok (Features.extract_discharge_capacity_difference df f3 cyclesDefault)

/-- One input file of the batch loop, as the loop body observes it:
the filename stem, the result of `convert_file_to_cloud` (`none` models
the reader failure that function converts into a `None` return), and
the string the interactive protocol prompt would return for it. -/
structure InputFile where
  stem : List Char
  cloud : Option CyclingRecord
  promptAnswer : String
deriving DecidableEq

/-- Outcome of one iteration of the `for path in mpr_file_path` loop in
src/main.py lines 48-97: `fatal` is an escaping `SystemExit` (`except
Exception` does not catch `BaseException`s), `err` an exception caught
by the per-file handler (`continue`), and `ok qcRow clRow sampleId` a
completed iteration that appended `qcRow` to `qc_sample_summary`,
`clRow` to `cycle_life_sample_data` and `sampleId` to
`sample_ID_list`. -/
inductive Outcome where
  | fatal : Outcome
  | err : Outcome
  | ok : Option FeatureSet → Option FeatureSet → List Char → Outcome
deriving DecidableEq

/-- The body of the batch loop (src/main.py lines 48-97), in source
order: resolve the sample ID (its failure is an `IndexError`, caught),
extract the mass (total), classify the protocol (an OCV marker raises
`SystemExit`), then extract and append by protocol; a prompt answer
other than `'F'`/`'FC'`/`'CL'` matches no branch, appends no row, and
still appends the sample ID.  In the `'CL'` branch the second extraction
(`extract_all_cycle_life_features`) fails only when the dataframe is
`None`, in which case `extract_qc_cycle_life_features` already failed
first, so a failure between the two appends is unreachable and the two
appends are modelled together. -/
def processFile (f : InputFile) : Outcome :=
  match resolveSampleId f.stem with
  | none => .err
  | some sid =>
    let mass := extract_mass_from_filename f.stem
    match get_protocol_type f.stem f.promptAnswer with
    | .systemExit => .fatal
    | .result p =>
      if p = "F" ∨ p = "FC" then
        match extract_formation_features f.cloud mass with
        | .error _ => .err
        | .ok feats => .ok (some feats) none sid
      else if p = "CL" then
        match extract_qc_cycle_life_features f.cloud mass with
        | .error _ => .err
        | .ok qc =>
          match extract_all_cycle_life_features f.cloud mass with
          | .error _ => .err
          | .ok cl => .ok (some qc) (some cl) sid
      else .ok none none sid

/-- The accumulators of the batch loop: `qc_sample_summary` (as its list
of appended rows), `cycle_life_sample_data`, `sample_ID_list`, and
whether a `SystemExit` terminated the run before the loop finished. -/
structure BatchState where
  qcRows : List FeatureSet
  clRows : List FeatureSet
  sampleIds : List (List Char)
  terminated : Bool
deriving DecidableEq

/-- The batch loop from a given accumulator state: a `fatal` outcome
stops the run (remaining files are never processed), `err` skips the
file, `ok` appends its row(s) and sample ID. -/
def runBatchAux : List InputFile → BatchState → BatchState
  | [], s => s
  | f :: rest, s =>
    match processFile f with
    | .fatal => ⟨s.qcRows, s.clRows, s.sampleIds, true⟩
    | .err => runBatchAux rest s
    | .ok qc cl sid =>
        runBatchAux rest
          ⟨s.qcRows ++ qc.toList, s.clRows ++ cl.toList, s.sampleIds ++ [sid], s.terminated⟩

/-- The whole batch loop of src/main.py, started from empty
accumulators. -/
def runBatch (files : List InputFile) : BatchState :=
  runBatchAux files ⟨[], [], [], false⟩

/-- The summary row a completed loop iteration appended (`[]` for
non-`ok` outcomes, which append nothing). -/
def outQcRow : Outcome → FeatureSet
  | .ok (some q) _ _ => q
  | _ => []

/-- The sample ID a completed loop iteration appended. -/
def outId : Outcome → List Char
  | .ok _ _ sid => sid
  | _ => []

/-! ### Concrete inputs used by the closed theorems below -/

/-- A record with two REST rows at step 0: one in cycle 1 (voltage 3)
and a later one in cycle 2 (voltage 5). -/
def c1df : CyclingRecord := [⟨"REST", 0, 1, 3, 0⟩, ⟨"REST", 0, 2, 5, 0⟩]

/-- A record whose only DISCHARGE rows are in cycle 2 — cycle 3 has
none. -/
def c2df : CyclingRecord := [⟨"DISCHARGE", 1, 2, 3, 1⟩]

/-- A features dict already holding the initial discharge capacity. -/
def c2fs : FeatureSet := [("Initial Discharge Capacity (mAh)", some 1000)]

/-- A record realising per-cycle maximum discharge capacities 10, 9 and
9.5 for cycles 2, 3 and 4. -/
def c3df : CyclingRecord :=
  [⟨"DISCHARGE", 1, 2, 0, 10⟩, ⟨"DISCHARGE", 1, 3, 0, 9⟩, ⟨"DISCHARGE", 1, 4, 0, 19/2⟩]

/-- A cloud record for which formation extraction succeeds end to end. -/
def goodCloud : CyclingRecord :=
  [⟨"REST", 0, 1, 3, 0⟩, ⟨"CHARGE", 1, 1, 4, 2⟩, ⟨"DISCHARGE", 2, 1, 3, 1⟩]

/-- A formation-protocol file that the batch loop processes
successfully. -/
def goodFile : InputFile := ⟨"QCL-1-CC-1-Formation".toList, some goodCloud, "X"⟩

/-- The summary row `processFile goodFile` appends. -/
def goodRow : FeatureSet :=
  [("Open Circuit Potential (V)", some 3),
   ("Initial Charge Capacity (mAh)", some 2000),
   ("Initial Specific Charge Capacity (mAh/g) ", some 2000),
   ("Initial Discharge Capacity (mAh)", some 1000),
   ("Initial Specific Discharge capacity (mAh/g)", some 1000),
   ("Initial Coulombic Efficiency (%)", some 50)]

/-- A file whose sample ID resolves but whose filename carries no
protocol marker, with a prompt answer that is none of `F`/`FC`/`CL`:
its loop iteration raises no exception, appends its sample ID, and
appends no row. -/
def c4junk : InputFile := ⟨"AB-CC-7".toList, some [], "X"⟩

/-- A file whose sample-ID resolution fails (no `CC` pattern), raising
the caught `IndexError`. -/
def c4err : InputFile := ⟨"ZZZZ".toList, some [], "X"⟩

/-- An OCV-marked file whose sample ID resolves, so its loop iteration
reaches `get_protocol_type` and its `sys.exit(1)`. -/
def c7ocv : InputFile := ⟨"QCL-1-CC-1-OCV".toList, some [], "X"⟩

/-- A record with two CHARGE rows (max `step_amp_hours` 3) and one
DISCHARGE row in cycle 1. -/
def c8df : CyclingRecord :=
  [⟨"CHARGE", 1, 1, 4, 2⟩, ⟨"CHARGE", 1, 1, 4, 3⟩, ⟨"DISCHARGE", 2, 1, 3, 1⟩]

/-- A permutation of `c8df`. -/
def c8df2 : CyclingRecord :=
  [⟨"DISCHARGE", 2, 1, 3, 1⟩, ⟨"CHARGE", 1, 1, 4, 3⟩, ⟨"CHARGE", 1, 1, 4, 2⟩]

/-- A features dict holding both initial capacities, charge 2000 mAh and
discharge 1000 mAh. -/
def c5fs : FeatureSet :=
  [("Initial Charge Capacity (mAh)", some 2000),
   ("Initial Discharge Capacity (mAh)", some 1000)]

/-! ### Helper lemmas -/

/-- Looking a key up after a dict assignment: the assigned key reads the
new value, all other keys are unaffected. -/
theorem fsLookup_fsInsert (fs : FeatureSet) (k q : String) (v : FVal) :
    fsLookup (fsInsert fs k v) q = if q = k then some v else fsLookup fs q := by
  induction fs with
  | nil =>
      simp only [fsInsert, fsLookup]
      split_ifs <;> simp_all
  | cons p rest ih =>
      obtain ⟨k0, v0⟩ := p
      by_cases h0 : k0 = k
      · subst h0
        simp only [fsInsert, if_pos rfl, fsLookup]
        split_ifs <;>
          first
          | rfl
          | (rename_i ha hb
             first
             | exact absurd ha.symm hb
             | exact absurd hb.symm ha)
      · simp only [fsInsert, if_neg h0, fsLookup, ih]
        split_ifs <;> simp_all

/-- Folding dict assignments with per-key values: after the fold, a key
that some listed element writes holds its value, provided any element
writing to the same key writes the same value. -/
theorem fsLookup_foldl_insert (key : ℤ → String) (val : ℤ → FVal) (cycles : List ℤ)
    (fs : FeatureSet) (n : ℤ)
    (hpre : fsLookup fs (key n) = some (val n) ∨ n ∈ cycles)
    (hcoll : ∀ m ∈ cycles, key m = key n → val m = val n) :
    fsLookup (cycles.foldl (fun acc c => fsInsert acc (key c) (val c)) fs) (key n)
      = some (val n) := by
  induction cycles generalizing fs with
  | nil =>
      rcases hpre with h | h
      · simpa using h
      · simp at h
  | cons c cs ih =>
      simp only [List.foldl_cons]
      apply ih
      · by_cases hk : key c = key n
        · left
          rw [fsLookup_fsInsert, if_pos hk.symm, hcoll c (by simp) hk]
        · rcases hpre with h | h
          · left
            rw [fsLookup_fsInsert, if_neg (fun he => hk he.symm), h]
          · rcases List.mem_cons.mp h with rfl | hmem
            · exact absurd rfl hk
            · right; exact hmem
      · exact fun m hm => hcoll m (List.mem_cons_of_mem c hm)

/-- `maxStep` is right-commutative. -/
theorem maxStep_rightComm (a : Option ℚ) (b c : ℚ) :
    maxStep (maxStep a b) c = maxStep (maxStep a c) b := by
  cases a <;> simp [maxStep, max_comm, max_left_comm, max_assoc]

/-- Folding `maxStep` is invariant under permutation of the list. -/
theorem foldl_maxStep_perm {l1 l2 : List ℚ} (h : l1.Perm l2) :
    ∀ acc : Option ℚ, l1.foldl maxStep acc = l2.foldl maxStep acc := by
  induction h with
  | nil => intro acc; rfl
  | cons x _ ih => intro acc; simp only [List.foldl_cons]; exact ih _
  | swap x y l => intro acc; simp only [List.foldl_cons, maxStep_rightComm]
  | trans _ _ ih1 ih2 => intro acc; rw [ih1, ih2]

/-- `Series.max()` is invariant under permutation (the claim's
"idempotent under row permutation"). -/
theorem listMax_perm {l1 l2 : List ℚ} (h : l1.Perm l2) : listMax l1 = listMax l2 :=
  foldl_maxStep_perm h none

/-- A file whose processing raises a caught exception is skipped: the
batch runs exactly as if the file were not in the list. -/
theorem runBatchAux_skip (pre post : List InputFile) (fk : InputFile) (s : BatchState)
    (h : processFile fk = .err) :
    runBatchAux (pre ++ fk :: post) s = runBatchAux (pre ++ post) s := by
  induction pre generalizing s with
  | nil => simp [runBatchAux, h]
  | cons p ps ih =>
      simp only [List.cons_append, runBatchAux]
      cases processFile p with
      | fatal => rfl
      | err => exact ih s
      | ok qc cl sid => exact ih _

/-- A run over files that all complete with a summary row appends, in
order, one summary row and one sample ID per file, and does not
terminate early. -/
theorem runBatchAux_allok (l : List InputFile) (s : BatchState)
    (h : ∀ f ∈ l, ∃ row cl sid, processFile f = .ok (some row) cl sid) :
    (runBatchAux l s).qcRows = s.qcRows ++ l.map (fun f => outQcRow (processFile f))
    ∧ (runBatchAux l s).sampleIds = s.sampleIds ++ l.map (fun f => outId (processFile f))
    ∧ (runBatchAux l s).terminated = s.terminated := by
  induction l generalizing s with
  | nil => simp [runBatchAux]
  | cons f fs ih =>
      obtain ⟨row, cl, sid, hf⟩ := h f (by simp)
      have hrest : ∀ g ∈ fs, ∃ row cl sid, processFile g = .ok (some row) cl sid :=
        fun g hg => h g (List.mem_cons_of_mem f hg)
      simp only [runBatchAux, hf]
      obtain ⟨h1, h2, h3⟩ := ih _ hrest
      refine ⟨?_, ?_, ?_⟩
      · rw [h1]; simp [outQcRow, outId, hf]
      · rw [h2]; simp [outQcRow, outId, hf]
      · rw [h3]

/-- A successful `startsWithDashCC` exhibits the `-CC` prefix. -/
theorem startsWithDashCC_spec (l : List Char) (h : startsWithDashCC l = true) :
    ∃ t, l = '-' :: 'C' :: 'C' :: t := by
  unfold startsWithDashCC at h
  split at h
  · rename_i t
    exact ⟨t, rfl⟩
  · exact absurd h (by simp)

/-- The fallback pattern captures exactly the text before an occurrence
of `-CC`: a successful `findDashCC` splits the filename as
`g ++ "-CC" ++ rest`. -/
theorem findDashCC_spec (l : List Char) : ∀ g, findDashCC l = some g →
    ∃ t, l = g ++ '-' :: 'C' :: 'C' :: t := by
  induction l with
  | nil => intro g h; simp [findDashCC] at h
  | cons c rest ih =>
      intro g h
      unfold findDashCC at h
      by_cases hs : startsWithDashCC (c :: rest) = true
      · rw [if_pos hs] at h
        obtain ⟨t, ht⟩ := startsWithDashCC_spec _ hs
        cases h
        exact ⟨t, by simpa using ht⟩
      · rw [if_neg hs] at h
        obtain ⟨g0, hg0, rfl⟩ := Option.map_eq_some'.mp h
        obtain ⟨t, ht⟩ := ih g0 hg0
        exact ⟨t, by rw [List.cons_append, ← ht]⟩

/-! ### Claims -/

/-- Claim C1 (code bug).  The claim states that `Features.extract_ocv`
selects exactly the rows with `step_type == REST`, `step_number == 0`
AND `cycle == 1`, so that REST/step-0 rows of other cycles are never
selected.  The code instead passes the `cycle == 1` condition as the
`out` argument of the binary ufunc `np.logical_and`, so the cycle
condition is discarded, contradicting the source's own comment.  On
`c1df` — whose only row satisfying all three conditions has voltage 3 —
the code selects the cycle-2 REST row and stores 5, where the claim
requires 3. -/
theorem C1_ocv_ignores_cycle :
    Features.extract_ocv c1df []
      = .ok [("Open Circuit Potential (V)", some 5)]
    ∧ ((c1df.filter fun r =>
          r.step_type == "REST" && r.step_number == 0 && r.cycle == 1).map
            fun r => r.voltage) = [3] := by
  exact ⟨by with_unfolding_all decide, by decide⟩

/-- Claim C2, counterexample.  The claim states that a requested cycle
`n > 1` with no DISCHARGE rows leaves the key "Retention Cycle n (%)"
absent from the result.  On `c2df` (no cycle-3 discharge rows) the key
"Retention Cycle 3 (%)" is present, bound to NaN: pandas `.max()` of
the empty selection is NaN and the assignment
`features[f"Retention Cycle {cycle} (%)"] = round(...)` still runs. -/
theorem C2_counterexample :
    Features.extract_capacities_for_cycles c2df c2fs [3]
      = .ok [("Initial Discharge Capacity (mAh)", some 1000), ("Retention Cycle 3 (%)", none)]
    ∧ fsLookup [("Initial Discharge Capacity (mAh)", some 1000), ("Retention Cycle 3 (%)", none)]
        "Retention Cycle 3 (%)" ≠ none := by
  exact ⟨by with_unfolding_all decide, by decide⟩

/-- Claim C2 (amended).  For every requested cycle `n > 1` that has no
DISCHARGE rows, `Features.extract_capacities_for_cycles` binds the key
"Retention Cycle n (%)" to NaN (the undefined maximum of an empty
selection) — the key is present with a non-numeric value, not absent as
the claim stated.  The last hypothesis rules out two distinct requested
cycles rendering the same key string. -/
theorem C2_missing_cycle_nan (df : CyclingRecord) (fs : FeatureSet) (idc : FVal)
    (cycles : List ℤ) (n : ℤ)
    (hidc : fsLookup fs "Initial Discharge Capacity (mAh)" = some idc)
    (hn : n ∈ cycles) (hgt : 1 < n)
    (hnorows : df.filter (fun r => r.step_type == "DISCHARGE" && r.cycle == n) = [])
    (hkeys : ∀ m ∈ cycles, Features.retentionKey m = Features.retentionKey n → m = n) :
    ∃ out, Features.extract_capacities_for_cycles df fs cycles = .ok out
      ∧ fsLookup out (Features.retentionKey n) = some none := by
  have hcap : Features.cycleDischargeCapacity df n = none := by
    simp [Features.cycleDischargeCapacity, hgt, hnorows, listMax]
  have hval : Features.retentionVal df idc n = none := by
    simp [Features.retentionVal, hcap, fMul, fDiv, fRound]
  have hok : Features.extract_capacities_for_cycles df fs cycles
      = .ok (cycles.foldl (fun acc c => fsInsert acc (Features.retentionKey c)
          (Features.retentionVal df idc c)) fs) := by
    unfold Features.extract_capacities_for_cycles
    rw [hidc]
  refine ⟨_, hok, ?_⟩
  have hfold := fsLookup_foldl_insert Features.retentionKey (Features.retentionVal df idc)
    cycles fs n (Or.inr hn) (fun m hm hkey => by rw [hkeys m hm hkey])
  rw [hfold, hval]

/-- Claim C2, witness: instantiating the amended theorem at `c2df` with
requested cycles `[2, 3]` and missing cycle 3. -/
theorem C2_witness :
    fsLookup c2fs "Initial Discharge Capacity (mAh)" = some (some 1000)
    ∧ (3 : ℤ) ∈ ([2, 3] : List ℤ)
    ∧ (1 : ℤ) < 3
    ∧ c2df.filter (fun r => r.step_type == "DISCHARGE" && r.cycle == 3) = []
    ∧ (∃ out, Features.extract_capacities_for_cycles c2df c2fs [2, 3] = .ok out
        ∧ fsLookup out (Features.retentionKey 3) = some none) := by
  refine ⟨by decide, by decide, by decide, by decide, ?_⟩
  exact C2_missing_cycle_nan c2df c2fs (some 1000) [2, 3] 3
    (by decide) (by decide) (by decide) (by decide) (by decide)

/-- Claim C3.  Drift extraction
(`Features.extract_discharge_capacity_difference`) is a running,
order-dependent computation: with per-cycle maximum discharge
capacities 10, 9, 9.5 for cycles 2, 3, 4 and requested cycles
`[2, 3, 4]`, the stored "Retention Difference for 3 (%)" is `-10.0` and
the stored "Retention Difference for 4 (%)" is
`round((9.5 - 9) / (9 / 100), 3) = 5.556`, computed against cycle 3's
capacity — and differs from the value a fixed cycle-2 baseline would
give. -/
theorem C3_drift_running_baseline (df : CyclingRecord) (fs : FeatureSet)
    (h2 : Features.cycleDischargeCapacity df 2 = some 10)
    (h3 : Features.cycleDischargeCapacity df 3 = some 9)
    (h4 : Features.cycleDischargeCapacity df 4 = some (19/2)) :
    fsLookup (Features.extract_discharge_capacity_difference df fs [2, 3, 4])
      (Features.diffKey 3) = some (some (-10))
    ∧ fsLookup (Features.extract_discharge_capacity_difference df fs [2, 3, 4])
      (Features.diffKey 4) = some (some (roundTo 3 ((19/2 - 9) / (9/100))))
    ∧ roundTo 3 ((19/2 - 9) / (9/100)) = 1389/250
    ∧ roundTo 3 ((19/2 - 9) / (9/100)) ≠ roundTo 3 ((19/2 - 10) / (10/100)) := by
  have hv2 : fRound 3 (fDiv (fSub (some 10) (some 10)) (fDiv (some 10) (some 100)))
      = some 0 := by with_unfolding_all decide
  have hv3 : fRound 3 (fDiv (fSub (some 9) (some 10)) (fDiv (some 10) (some 100)))
      = some (-10) := by with_unfolding_all decide
  have hv4 : fRound 3 (fDiv (fSub (some (19/2)) (some 9)) (fDiv (some 9) (some 100)))
      = some (1389/250) := by with_unfolding_all decide
  have hdiff : Features.extract_discharge_capacity_difference df fs [2, 3, 4]
      = fsInsert (fsInsert (fsInsert fs (Features.diffKey 2) (some 0))
          (Features.diffKey 3) (some (-10))) (Features.diffKey 4) (some (1389/250)) := by
    simp only [Features.extract_discharge_capacity_difference, List.foldl_cons, List.foldl_nil,
      Features.diffStep, h2, h3, h4, hv2, hv3, hv4]
  refine ⟨?_, ?_, by with_unfolding_all decide, by with_unfolding_all decide⟩
  · rw [hdiff, fsLookup_fsInsert, if_neg (by decide), fsLookup_fsInsert, if_pos rfl]
  · rw [hdiff, fsLookup_fsInsert, if_pos rfl]
    have : roundTo 3 ((19/2 - 9) / (9/100)) = 1389/250 := by with_unfolding_all decide
    rw [this]

/-- Claim C3, witness: the capacities 10, 9, 9.5 for cycles 2, 3, 4 are
realised by the concrete record `c3df`. -/
theorem C3_witness :
    Features.cycleDischargeCapacity c3df 2 = some 10
    ∧ Features.cycleDischargeCapacity c3df 3 = some 9
    ∧ Features.cycleDischargeCapacity c3df 4 = some (19/2)
    ∧ fsLookup (Features.extract_discharge_capacity_difference c3df [] [2, 3, 4])
        (Features.diffKey 3) = some (some (-10))
    ∧ fsLookup (Features.extract_discharge_capacity_difference c3df [] [2, 3, 4])
        (Features.diffKey 4) = some (some (roundTo 3 ((19/2 - 9) / (9/100)))) := by
  refine ⟨by with_unfolding_all decide, by with_unfolding_all decide,
    by with_unfolding_all decide, ?_, ?_⟩
  · exact (C3_drift_running_baseline c3df [] (by with_unfolding_all decide)
      (by with_unfolding_all decide) (by with_unfolding_all decide)).1
  · exact (C3_drift_running_baseline c3df [] (by with_unfolding_all decide)
      (by with_unfolding_all decide) (by with_unfolding_all decide)).2.1

/-- Claim C4, counterexample.  The claim states that for every batch of
N files in which exactly one file raises an error, the summary table
gets exactly N−1 rows and the sample-ID list N−1 entries.  In the batch
`[c4junk, c4err]` (N = 2) only `c4err` raises an error — `c4junk`
completes its iteration without an exception, because its unrecognised
prompt answer simply matches no protocol branch — yet the summary table
receives 0 rows (not N−1 = 1) while the sample-ID list receives 1
entry: an ID with no corresponding row. -/
theorem C4_counterexample :
    processFile c4junk = .ok none none ("AB-CC-7".toList)
    ∧ processFile c4err = .err
    ∧ (runBatch [c4junk, c4err]).sampleIds.length = 1
    ∧ (runBatch [c4junk, c4err]).qcRows.length = 0 := by
  exact ⟨by decide, by decide, by decide, by decide⟩

/-- Claim C4 (amended).  For every batch `pre ++ fk :: post` in which
the single file `fk` raises a caught error and every other file
completes its iteration WITH a summary row (i.e. is classified as a
formation or cycle-life protocol), the loop skips `fk` and continues:
the batch result equals that of the batch without `fk`, the summary
table has exactly N−1 rows and the sample-ID list N−1 entries, and the
i-th sample ID and the i-th row come from the same (i-th successful)
file.  Without the extra classification hypothesis the claim fails, see
the counterexample: a file resolving to no protocol branch raises no
error but appends an ID and no row. -/
theorem C4_failed_file_skipped (pre post : List InputFile) (fk : InputFile)
    (herr : processFile fk = .err)
    (hok : ∀ f ∈ pre ++ post, ∃ row cl sid, processFile f = .ok (some row) cl sid) :
    runBatch (pre ++ fk :: post) = runBatch (pre ++ post)
    ∧ (runBatch (pre ++ fk :: post)).qcRows
        = (pre ++ post).map (fun f => outQcRow (processFile f))
    ∧ (runBatch (pre ++ fk :: post)).sampleIds
        = (pre ++ post).map (fun f => outId (processFile f))
    ∧ (runBatch (pre ++ fk :: post)).qcRows.length = pre.length + post.length
    ∧ (runBatch (pre ++ fk :: post)).sampleIds.length = pre.length + post.length
    ∧ (runBatch (pre ++ fk :: post)).terminated = false := by
  have hskip : runBatch (pre ++ fk :: post) = runBatch (pre ++ post) :=
    runBatchAux_skip pre post fk _ herr
  obtain ⟨h1, h2, h3⟩ := runBatchAux_allok (pre ++ post) ⟨[], [], [], false⟩ hok
  have h1' : (runBatch (pre ++ post)).qcRows
      = (pre ++ post).map (fun f => outQcRow (processFile f)) := by
    simpa [runBatch] using h1
  have h2' : (runBatch (pre ++ post)).sampleIds
      = (pre ++ post).map (fun f => outId (processFile f)) := by
    simpa [runBatch] using h2
  refine ⟨hskip, ?_, ?_, ?_, ?_, ?_⟩
  · rw [hskip, h1']
  · rw [hskip, h2']
  · rw [hskip, h1']; simp
  · rw [hskip, h2']; simp
  · rw [hskip]; simpa [runBatch] using h3

/-- Claim C4, witness: a two-file batch whose second file fails; the
first file's row and ID are kept, in lockstep, and nothing else is. -/
theorem C4_witness :
    processFile c4err = .err
    ∧ (∀ f ∈ [goodFile] ++ ([] : List InputFile),
        ∃ row cl sid, processFile f = .ok (some row) cl sid)
    ∧ (runBatch [goodFile, c4err]).qcRows.length = 1
    ∧ (runBatch [goodFile, c4err]).sampleIds.length = 1
    ∧ (runBatch [goodFile, c4err]).terminated = false := by
  have hok : ∀ f ∈ [goodFile] ++ ([] : List InputFile),
      ∃ row cl sid, processFile f = .ok (some row) cl sid := by
    intro f hf
    have hf' : f = goodFile := by simpa using hf
    subst hf'
    exact ⟨goodRow, none, "QCL-1-CC-1".toList, by with_unfolding_all decide⟩
  have h := C4_failed_file_skipped [goodFile] [] c4err (by decide) hok
  exact ⟨by decide, hok, h.2.2.2.1, h.2.2.2.2.1, h.2.2.2.2.2⟩

/-- Claim C5.  `Features.extract_initial_coulombic_efficiency` stores,
for a features dict holding discharge capacity `dv` and nonzero charge
capacity `cv`, exactly `round(100 * dv / cv, 1)` under
"Initial Coulombic Efficiency (%)"; if either capacity key is absent it
raises (`KeyError`) instead of producing a value; and
`extract_formation_features` calls it after both capacity extractions,
so whenever the formation pipeline reaches it (i.e. the OCV step
succeeded) both keys are present and the efficiency feature is
produced. -/
theorem C5_coulombic_efficiency (df : CyclingRecord) (fs : FeatureSet) (dv cv : ℚ) :
    (fsLookup fs "Initial Discharge Capacity (mAh)" = some (some dv) →
     fsLookup fs "Initial Charge Capacity (mAh)" = some (some cv) → cv ≠ 0 →
     Features.extract_initial_coulombic_efficiency df fs
       = .ok (fsInsert fs "Initial Coulombic Efficiency (%)"
           (some (roundTo 1 (100 * dv / cv)))))
    ∧ (fsLookup fs "Initial Discharge Capacity (mAh)" = none ∨
       fsLookup fs "Initial Charge Capacity (mAh)" = none →
       Features.extract_initial_coulombic_efficiency df fs = .error "KeyError")
    ∧ (∀ (mass : ℚ) (f1 : FeatureSet), Features.extract_ocv df [] = .ok f1 →
        ∃ out, extract_formation_features (some df) mass = .ok out
          ∧ fsLookup out "Initial Coulombic Efficiency (%)" ≠ none) := by
  refine ⟨?_, ?_, ?_⟩
  · intro hd hc hcv
    simp only [Features.extract_initial_coulombic_efficiency, hd, hc, fDiv, fMul, fRound,
      if_neg hcv]
    rw [show dv / cv * 100 = 100 * dv / cv by ring]
  · intro h
    unfold Features.extract_initial_coulombic_efficiency
    rcases h with h | h
    · rw [h]
    · cases hdis : fsLookup fs "Initial Discharge Capacity (mAh)" with
      | none => rfl
      | some d => rw [h]
  · intro mass f1 hocv
    simp only [extract_formation_features, hocv]
    set f2 := Features.extract_initial_charge_capacity df f1 mass with hf2
    have hd : fsLookup (Features.extract_initial_discharge_capacity df f2 mass)
        "Initial Discharge Capacity (mAh)"
        = some (fRound 3 (fMul (listMax ((df.filter Features.dischargeMask).map
            (fun r => r.step_amp_hours))) (some 1000))) := by
      simp only [Features.extract_initial_discharge_capacity]
      rw [fsLookup_fsInsert, if_neg (by decide), fsLookup_fsInsert, if_pos rfl]
    have hc : fsLookup (Features.extract_initial_discharge_capacity df f2 mass)
        "Initial Charge Capacity (mAh)"
        = some (fRound 3 (fMul (listMax ((df.filter Features.chargeMask).map
            (fun r => r.step_amp_hours))) (some 1000))) := by
      simp only [Features.extract_initial_discharge_capacity, hf2,
        Features.extract_initial_charge_capacity]
      rw [fsLookup_fsInsert, if_neg (by decide), fsLookup_fsInsert, if_neg (by decide),
        fsLookup_fsInsert, if_neg (by decide), fsLookup_fsInsert, if_pos rfl]
    simp only [Features.extract_initial_coulombic_efficiency, hd, hc]
    refine ⟨_, rfl, ?_⟩
    rw [fsLookup_fsInsert, if_pos rfl]
    simp

/-- Claim C5, witness: with charge 2000 mAh and discharge 1000 mAh the
stored efficiency is `round(100 * 1000 / 2000, 1) = 50.0`; on an empty
dict the function raises; and the formation pipeline on `goodCloud`
reaches and produces the efficiency feature. -/
theorem C5_witness :
    fsLookup c5fs "Initial Discharge Capacity (mAh)" = some (some 1000)
    ∧ fsLookup c5fs "Initial Charge Capacity (mAh)" = some (some 2000)
    ∧ (2000 : ℚ) ≠ 0
    ∧ Features.extract_initial_coulombic_efficiency [] c5fs
        = .ok (fsInsert c5fs "Initial Coulombic Efficiency (%)"
            (some (roundTo 1 (100 * 1000 / 2000))))
    ∧ Features.extract_initial_coulombic_efficiency [] [] = .error "KeyError"
    ∧ Features.extract_ocv goodCloud [] = .ok [("Open Circuit Potential (V)", some 3)]
    ∧ (∃ out, extract_formation_features (some goodCloud) 1 = .ok out
        ∧ fsLookup out "Initial Coulombic Efficiency (%)" ≠ none) := by
  refine ⟨by decide, by decide, by norm_num, ?_, ?_, by with_unfolding_all decide, ?_⟩
  · exact (C5_coulombic_efficiency [] c5fs 1000 2000).1 (by decide) (by decide) (by norm_num)
  · exact (C5_coulombic_efficiency [] [] 0 0).2.1 (Or.inl (by decide))
  · exact (C5_coulombic_efficiency goodCloud [] 0 0).2.2 1
      [("Open Circuit Potential (V)", some 3)] (by with_unfolding_all decide)

/-- Claim C6.  `get_protocol_type` checks its markers in priority order,
with the more specific "Formation-Capacity-Check" before "Formation":
every filename containing "Formation-Capacity-Check" but no OCV and no
cycle-life ("Life") marker classifies as `'FC'`, never as `'F'`
(regardless of what the interactive prompt would answer). -/
theorem C6_protocol_priority (filename : List Char) (ans : String)
    (h1 : containsSub ("OCV".toList) filename = false)
    (h2 : containsSub ("Life".toList) filename = false)
    (h3 : containsSub ("Formation-Capacity-Check".toList) filename = true) :
    get_protocol_type filename ans = .result "FC"
    ∧ get_protocol_type filename ans ≠ .result "F" := by
  have hfc : get_protocol_type filename ans = .result "FC" := by
    unfold get_protocol_type
    rw [h1, h2, h3]
    simp
  exact ⟨hfc, by rw [hfc]; decide⟩

/-- Claim C6, witness: the spec's example filename
"QCL-123-A-Formation-Capacity-Check-..." classifies as `'FC'`. -/
theorem C6_witness :
    containsSub ("OCV".toList) ("QCL-123-A-Formation-Capacity-Check-01".toList) = false
    ∧ containsSub ("Life".toList) ("QCL-123-A-Formation-Capacity-Check-01".toList) = false
    ∧ containsSub ("Formation-Capacity-Check".toList)
        ("QCL-123-A-Formation-Capacity-Check-01".toList) = true
    ∧ get_protocol_type ("QCL-123-A-Formation-Capacity-Check-01".toList) "X" = .result "FC"
    ∧ get_protocol_type ("QCL-123-A-Formation-Capacity-Check-01".toList) "X" ≠ .result "F" := by
  refine ⟨by decide, by decide, by decide, ?_, ?_⟩
  · exact (C6_protocol_priority ("QCL-123-A-Formation-Capacity-Check-01".toList) "X"
      (by decide) (by decide) (by decide)).1
  · exact (C6_protocol_priority ("QCL-123-A-Formation-Capacity-Check-01".toList) "X"
      (by decide) (by decide) (by decide)).2

/-- Claim C7, counterexample.  The claim states that an OCV-marked file
reaching the batch loop is caught by the per-file handler and the batch
continues.  In the batch `[c7ocv, goodFile]` the OCV file's
`sys.exit(1)` raises `SystemExit`, which `except Exception` does not
catch: the run terminates, `goodFile` — which processed alone
contributes one summary row — is never processed, and the batch ends
with empty accumulators. -/
theorem C7_counterexample :
    (runBatch [goodFile]).qcRows.length = 1
    ∧ processFile c7ocv = .fatal
    ∧ runBatch [c7ocv, goodFile] = ⟨[], [], [], true⟩
    ∧ (runBatch [c7ocv, goodFile]).sampleIds.length ≠ 1 := by
  exact ⟨by with_unfolding_all decide, by decide, by decide, by decide⟩

/-- Claim C7 (amended).  For every file whose filename contains the
`OCV` marker and whose sample ID resolves (so its iteration reaches
protocol classification), the `SystemExit` raised by
`get_protocol_type` escapes the loop's `except Exception` handler and
terminates the whole run: the files after it are never processed and
the accumulators stay as they were — the batch does NOT continue. -/
theorem C7_ocv_terminates_run (f : InputFile) (sid : List Char)
    (hocv : containsSub ("OCV".toList) f.stem = true)
    (hsid : resolveSampleId f.stem = some sid) :
    processFile f = .fatal
    ∧ ∀ (rest : List InputFile) (s : BatchState),
        runBatchAux (f :: rest) s = ⟨s.qcRows, s.clRows, s.sampleIds, true⟩ := by
  have hfatal : processFile f = .fatal := by
    unfold processFile
    rw [hsid]
    unfold get_protocol_type
    rw [hocv]
    simp
  exact ⟨hfatal, fun rest s => by simp [runBatchAux, hfatal]⟩

/-- Claim C7, witness: the amended theorem applied to the concrete OCV
file `c7ocv`, in front of a file that would otherwise be processed. -/
theorem C7_witness :
    containsSub ("OCV".toList) c7ocv.stem = true
    ∧ resolveSampleId c7ocv.stem = some ("QCL-1-CC-1".toList)
    ∧ processFile c7ocv = .fatal
    ∧ runBatchAux [c7ocv, goodFile] ⟨[], [], [], false⟩ = ⟨[], [], [], true⟩ := by
  refine ⟨by decide, by decide, ?_, ?_⟩
  · exact (C7_ocv_terminates_run c7ocv ("QCL-1-CC-1".toList) (by decide) (by decide)).1
  · exact (C7_ocv_terminates_run c7ocv ("QCL-1-CC-1".toList) (by decide) (by decide)).2
      [goodFile] ⟨[], [], [], false⟩

/-- Claim C8.  For every record with at least one CHARGE (resp.
DISCHARGE) row in cycle 1, the stored initial capacity is the maximum
`step_amp_hours` over those rows ×1000 rounded to 3 decimals, the
stored specific capacity is that mAh value divided by the mass rounded
to 1 decimal, and both extraction functions are invariant under any
permutation of the record's rows. -/
theorem C8_initial_capacity_max (df df2 : CyclingRecord) (fs : FeatureSet) (mass : ℚ)
    (hmass : mass ≠ 0) :
    (∀ m, listMax ((df.filter Features.chargeMask).map (fun r => r.step_amp_hours)) = some m →
       fsLookup (Features.extract_initial_charge_capacity df fs mass)
           "Initial Charge Capacity (mAh)" = some (some (roundTo 3 (m * 1000)))
       ∧ fsLookup (Features.extract_initial_charge_capacity df fs mass)
           "Initial Specific Charge Capacity (mAh/g) " = some (some (roundTo 1 (m * 1000 / mass))))
    ∧ (∀ m, listMax ((df.filter Features.dischargeMask).map (fun r => r.step_amp_hours)) = some m →
       fsLookup (Features.extract_initial_discharge_capacity df fs mass)
           "Initial Discharge Capacity (mAh)" = some (some (roundTo 3 (m * 1000)))
       ∧ fsLookup (Features.extract_initial_discharge_capacity df fs mass)
           "Initial Specific Discharge capacity (mAh/g)" = some (some (roundTo 1 (m * 1000 / mass))))
    ∧ (df.Perm df2 →
        Features.extract_initial_charge_capacity df fs mass
          = Features.extract_initial_charge_capacity df2 fs mass
        ∧ Features.extract_initial_discharge_capacity df fs mass
          = Features.extract_initial_discharge_capacity df2 fs mass) := by
  refine ⟨?_, ?_, ?_⟩
  · intro m hm
    constructor
    · simp only [Features.extract_initial_charge_capacity, hm]
      rw [fsLookup_fsInsert, if_neg (by decide), fsLookup_fsInsert, if_pos rfl]
      simp [fMul, fRound]
    · simp only [Features.extract_initial_charge_capacity, hm]
      rw [fsLookup_fsInsert, if_pos rfl]
      simp [fMul, fDiv, fRound, if_neg hmass]
  · intro m hm
    constructor
    · simp only [Features.extract_initial_discharge_capacity, hm]
      rw [fsLookup_fsInsert, if_neg (by decide), fsLookup_fsInsert, if_pos rfl]
      simp [fMul, fRound]
    · simp only [Features.extract_initial_discharge_capacity, hm]
      rw [fsLookup_fsInsert, if_pos rfl]
      simp [fMul, fDiv, fRound, if_neg hmass]
  · intro hperm
    have hc : listMax ((df.filter Features.chargeMask).map (fun r => r.step_amp_hours))
        = listMax ((df2.filter Features.chargeMask).map (fun r => r.step_amp_hours)) :=
      listMax_perm ((hperm.filter _).map _)
    have hd : listMax ((df.filter Features.dischargeMask).map (fun r => r.step_amp_hours))
        = listMax ((df2.filter Features.dischargeMask).map (fun r => r.step_amp_hours)) :=
      listMax_perm ((hperm.filter _).map _)
    constructor
    · simp only [Features.extract_initial_charge_capacity, hc]
    · simp only [Features.extract_initial_discharge_capacity, hd]

/-- Claim C8, witness: on `c8df` (charge maximum 3 Ah, discharge
maximum 1 Ah, mass 2 g) the stored values are 3000 mAh / 1500 mAh·g⁻¹
and 1000 mAh / 500 mAh·g⁻¹, and the reversed record `c8df2` gives the
same features. -/
theorem C8_witness :
    (2 : ℚ) ≠ 0
    ∧ listMax ((c8df.filter Features.chargeMask).map (fun r => r.step_amp_hours)) = some 3
    ∧ listMax ((c8df.filter Features.dischargeMask).map (fun r => r.step_amp_hours)) = some 1
    ∧ c8df.Perm c8df2
    ∧ fsLookup (Features.extract_initial_charge_capacity c8df [] 2)
        "Initial Charge Capacity (mAh)" = some (some (roundTo 3 (3 * 1000)))
    ∧ fsLookup (Features.extract_initial_charge_capacity c8df [] 2)
        "Initial Specific Charge Capacity (mAh/g) " = some (some (roundTo 1 (3 * 1000 / 2)))
    ∧ fsLookup (Features.extract_initial_discharge_capacity c8df [] 2)
        "Initial Discharge Capacity (mAh)" = some (some (roundTo 3 (1 * 1000)))
    ∧ Features.extract_initial_charge_capacity c8df [] 2
        = Features.extract_initial_charge_capacity c8df2 [] 2 := by
  refine ⟨by norm_num, by decide, by decide, by decide, ?_, ?_, ?_, ?_⟩
  · exact ((C8_initial_capacity_max c8df c8df2 [] 2 (by norm_num)).1 3 (by decide)).1
  · exact ((C8_initial_capacity_max c8df c8df2 [] 2 (by norm_num)).1 3 (by decide)).2
  · exact ((C8_initial_capacity_max c8df c8df2 [] 2 (by norm_num)).2.1 1 (by decide)).1
  · exact ((C8_initial_capacity_max c8df c8df2 [] 2 (by norm_num)).2.2 (by decide)).1

/-- Claim C9, counterexample.  The claim states that on a single
filename matched by the primary pattern, `process_filenames_CC` returns
the captured groups joined with the separator `'-'`.  On
"QCL-123-CC-45" the captured groups are "QCL-123-" (the lazy `(.*?)`
keeps the dash) and "CC-45"; the code returns `match[0]` — their plain
concatenation "QCL-123-CC-45" — whereas joining them with `'-'` would
insert a second dash, "QCL-123--CC-45". -/
theorem C9_counterexample :
    findCC ("QCL-123-CC-45".toList) = some ("QCL-123-".toList, "CC-45".toList)
    ∧ process_filenames_CC ("QCL-123-CC-45".toList) = some ("QCL-123-CC-45".toList)
    ∧ process_filenames_CC ("QCL-123-CC-45".toList)
        ≠ some ("QCL-123-".toList ++ '-' :: "CC-45".toList) := by
  exact ⟨by decide, by decide, by decide⟩

/-- Claim C9 (amended).  On a single filename matched by the primary
pattern `^(.*?)(CC-\d{1,2})`, `process_filenames_CC` returns the whole
matched text — the concatenation of the two captured groups, with no
separator inserted (the `'-'`-join applies only to list input); when
the primary pattern does not match, the caller falls back to the
`(.*?)-CC` pattern, which captures exactly the text preceding an
occurrence of `-CC`; and when neither matches, identity resolution
fails and the loop iteration ends in the caught error. -/
theorem C9_sample_id_resolution (fn : List Char) :
    (∀ g1 g2, findCC fn = some (g1, g2) → process_filenames_CC fn = some (g1 ++ g2))
    ∧ (findCC fn = none → process_filenames_CC fn = none)
    ∧ (process_filenames_CC fn = none → resolveSampleId fn = findDashCC fn)
    ∧ (∀ g, findDashCC fn = some g → ∃ t, fn = g ++ '-' :: 'C' :: 'C' :: t)
    ∧ (∀ (cloud : Option CyclingRecord) (ans : String),
        resolveSampleId fn = none → processFile ⟨fn, cloud, ans⟩ = .err) := by
  refine ⟨?_, ?_, ?_, ?_, ?_⟩
  · intro g1 g2 h
    simp only [process_filenames_CC, h, Option.map_some']
  · intro h
    simp only [process_filenames_CC, h, Option.map_none']
  · intro h
    unfold resolveSampleId
    rw [h]
  · exact findDashCC_spec fn
  · intro cloud ans h
    unfold processFile
    rw [h]

/-- Claim C9, witness: both pattern layers and the failure layer at
concrete filenames ("AB-CC-7x" matches the primary pattern, "AB-CCX"
only the fallback, "ZZZZ" neither). -/
theorem C9_witness :
    findCC ("AB-CC-7x".toList) = some ("AB-".toList, "CC-7".toList)
    ∧ process_filenames_CC ("AB-CC-7x".toList) = some ("AB-CC-7".toList)
    ∧ process_filenames_CC ("AB-CCX".toList) = none
    ∧ resolveSampleId ("AB-CCX".toList) = findDashCC ("AB-CCX".toList)
    ∧ findDashCC ("AB-CCX".toList) = some ("AB".toList)
    ∧ (∃ t, "AB-CCX".toList = "AB".toList ++ '-' :: 'C' :: 'C' :: t)
    ∧ resolveSampleId ("ZZZZ".toList) = none
    ∧ processFile ⟨"ZZZZ".toList, some [], "X"⟩ = .err := by
  refine ⟨by decide, ?_, by decide, ?_, by decide, ?_, by decide, ?_⟩
  · exact (C9_sample_id_resolution ("AB-CC-7x".toList)).1 ("AB-".toList) ("CC-7".toList)
      (by decide)
  · exact (C9_sample_id_resolution ("AB-CCX".toList)).2.2.1 (by decide)
  · exact (C9_sample_id_resolution ("AB-CCX".toList)).2.2.2.1 ("AB".toList) (by decide)
  · exact (C9_sample_id_resolution ("ZZZZ".toList)).2.2.2.2 (some []) "X" (by decide)

/-- Claim C10.  `extract_mass_from_filename` is total: when the second
`'_'`-delimited token is absent, or present but not parseable as a
float, it returns exactly `1.0` (the bare `except` swallows the
`IndexError` / `ValueError`); when the token parses, the parsed value
is returned. -/
theorem C10_mass_fallback (fn : List Char) :
    ((splitOnUnderscore fn)[1]? = none → extract_mass_from_filename fn = 1)
    ∧ (∀ t, (splitOnUnderscore fn)[1]? = some t → pyFloat t = none →
        extract_mass_from_filename fn = 1)
    ∧ (∀ t q, (splitOnUnderscore fn)[1]? = some t → pyFloat t = some q →
        extract_mass_from_filename fn = q) := by
  refine ⟨?_, ?_, ?_⟩
  · intro h
    simp only [extract_mass_from_filename, h]
  · intro t h1 h2
    simp only [extract_mass_from_filename, h1, h2]
  · intro t q h1 h2
    simp only [extract_mass_from_filename, h1, h2]

/-- Claim C10, witness: "ABC" has no second token and "AB_zz_x" an
unparseable one — both give mass `1.0` — while "AB_2.5_x" gives the
parsed `2.5`. -/
theorem C10_witness :
    (splitOnUnderscore ("ABC".toList))[1]? = none
    ∧ extract_mass_from_filename ("ABC".toList) = 1
    ∧ (splitOnUnderscore ("AB_zz_x".toList))[1]? = some ("zz".toList)
    ∧ pyFloat ("zz".toList) = none
    ∧ extract_mass_from_filename ("AB_zz_x".toList) = 1
    ∧ (splitOnUnderscore ("AB_2.5_x".toList))[1]? = some ("2.5".toList)
    ∧ pyFloat ("2.5".toList) = some (5/2)
    ∧ extract_mass_from_filename ("AB_2.5_x".toList) = 5/2 := by
  refine ⟨by decide, ?_, by decide, by decide, ?_, by decide,
    by with_unfolding_all decide, ?_⟩
  · exact (C10_mass_fallback ("ABC".toList)).1 (by decide)
  · exact (C10_mass_fallback ("AB_zz_x".toList)).2.1 ("zz".toList) (by decide) (by decide)
  · exact (C10_mass_fallback ("AB_2.5_x".toList)).2.2 ("2.5".toList) (5/2) (by decide)
      (by with_unfolding_all decide)
